import Mathlib

set_option maxRecDepth 8000
set_option maxHeartbeats 1000000

/-!
Shallow embedding of the alt-text Slack bot (utils.ts and
netlify/functions/slack-events.ts) and proofs about it.

Conventions used throughout:
  - JavaScript `undefined`/`null` string values are modelled as `Option String`
    with `none`; a defined empty string is `some ""`.
  - JavaScript truthiness on strings (falsy for `undefined`, `null`, `""`)
    is modelled by `jsTruthy` / `jsOrStr`.
  - `String.includes` is modelled by `jsIncludes` (substring containment on
    the character lists).
  - `parseInt(s, 10)` is modelled by `jsParseInt`, with `none` standing for
    `NaN`; every JS comparison against `NaN` is `false`, which the freshness
    check `tsStale` reproduces.
  - The `Set<string>` dedup cache is modelled as a `List String` in insertion
    order; the JS `Map<string, string | null>` of suggestions is modelled as
    an association list `List (String × Option String)` with `setEntry` /
    `mapGet` mirroring `Map.set` / `Map.get`.
  - Network effects are modelled by oracles: a per-file generation outcome
    for the suggestion loop, a script of HTTP outcomes for the retry loop,
    and an outcome for the final `chat.postEphemeral` call.
-/

namespace AltTextBot

/-! JavaScript value helpers -/

/-- Truthiness of a JS string value: `undefined`, `null` and `""` are falsy. -/
def jsTruthy : Option String → Bool
  | some s => s ≠ ""
  | none => false

/-- The JS expression `a || b` for a possibly-undefined string `a`. -/
def jsOrStr (a : Option String) (b : String) : String :=
  match a with
  | some s => if s = "" then b else s
  | none => b

/-- The JS expression `hay.includes(sub)`: substring containment. -/
def jsIncludes (hay sub : String) : Bool :=
  decide (sub.data <:+: hay.data)

/-- Whitespace skipped by `parseInt`. -/
def isJsSpace (c : Char) : Bool :=
  c = ' ' || c = '\t' || c = '\n' || c = '\r'

/-- Accumulate a decimal digit list into a natural number. -/
def digitsToNat : List Char → Nat → Nat
  | [], acc => acc
  | c :: cs, acc => digitsToNat cs (acc * 10 + (c.toNat - '0'.toNat))

/-- The JS `parseInt(s, 10)`: skip leading whitespace, read an optional sign
and the longest digit run; `none` models `NaN` (no digits at all). -/
def jsParseInt (s : String) : Option Int :=
  let cs := s.data.dropWhile isJsSpace
  let signAndRest : Int × List Char :=
    match cs with
    | '-' :: r => (-1, r)
    | '+' :: r => (1, r)
    | r => (1, r)
  let ds := signAndRest.2.takeWhile Char.isDigit
  if ds.isEmpty then none
  else some (signAndRest.1 * (digitsToNat ds 0 : Int))

/-! Slack file objects and the missing-alt-text classification
(utils.ts, getImageNamesWithMissingAltText / getImagesWithMissingAltText) -/

/-- A Slack file object, with the fields the bot reads. -/
structure SlackFile where
  name : String
  mimetype : String
  alt_txt : Option String
  thumb_800 : Option String
  thumb_720 : Option String
  thumb_480 : Option String
  thumb_360 : Option String
  url_private : Option String
  url_private_download : Option String
deriving DecidableEq

/-- Source: `files.filter(f => f.mimetype.includes('image') && f.alt_txt === undefined).map(f => f.name)`. -/
def getImageNamesWithMissingAltText (files : List SlackFile) : List String :=
  (files.filter (fun file => jsIncludes file.mimetype "image" && file.alt_txt.isNone)).map
    (fun file => file.name)

/-- Source: `files.filter(f => f.mimetype.includes('image') && f.alt_txt === undefined)`. -/
def getImagesWithMissingAltText (files : List SlackFile) : List SlackFile :=
  files.filter (fun file => jsIncludes file.mimetype "image" && file.alt_txt.isNone)

/-- Source: getBestThumbnailUrl — prefer thumb_800, then 720, 480, 360, then
the full-size URLs, else null. -/
def getBestThumbnailUrl (file : SlackFile) : Option String :=
  if jsTruthy file.thumb_800 then file.thumb_800
  else if jsTruthy file.thumb_720 then file.thumb_720
  else if jsTruthy file.thumb_480 then file.thumb_480
  else if jsTruthy file.thumb_360 then file.thumb_360
  else if jsTruthy file.url_private then file.url_private
  else if jsTruthy file.url_private_download then file.url_private_download
  else none

/-! The `Map<string, string | null>` of suggestions, as an association list
in insertion order with unique keys (the invariant JS `Map` maintains). -/

/-- Models `Map.set`: replace the value at an existing key in place, else append. -/
def setEntry : List (String × Option String) → String → Option String → List (String × Option String)
  | [], k, v => [(k, v)]
  | p :: rest, k, v => if p.1 = k then (k, v) :: rest else p :: setEntry rest k v

/-- Models `Map.get`: `some` the stored value when the key is present (the stored
value itself is `none` for a recorded null), `none` when absent. -/
def mapGet : List (String × Option String) → String → Option (Option String)
  | [], _ => none
  | p :: rest, k => if p.1 = k then some p.2 else mapGet rest k

/-- Outcome of one `generateAltTextSuggestion` call in the per-image loop:
a returned suggestion-or-null, or a thrown exception. -/
inductive GenOutcome where
  | ok (text : Option String)
  | exc
deriving DecidableEq

/-- One iteration of the per-image loop in handleAltTextGeneration: select a
URL, call the generator, and record suggestion-or-null under the filename. -/
def suggestionStep (gen : SlackFile → GenOutcome) (m : List (String × Option String))
    (file : SlackFile) : List (String × Option String) :=
  match getBestThumbnailUrl file with
  | some _ =>
    match gen file with
    | .ok s => setEntry m file.name s
    | .exc => setEntry m file.name none
  | none => setEntry m file.name none

/-- The whole per-image loop of handleAltTextGeneration, building the
`altTextSuggestions` map. -/
def buildSuggestions (files : List SlackFile) (gen : SlackFile → GenOutcome) :
    List (String × Option String) :=
  files.foldl (suggestionStep gen) []

/-! Notification composer (utils.ts, generateResponseText) -/

/-- The fixed how-to instructions appended to every reminder. -/
def instructions : String :=
  "On Desktop, activate the *More actions* menu on the image, choose *Edit file details*, and modify the " ++
  "*Description* field to add alt text. On Android, long press the image and select *Add description*. If adding alt is not supported on your device," ++
  " simply provide alt text in a follow-up message. ❤️"

/-- One suggestion-block entry: `*${filename}:*` and a fenced suggestion. -/
def formatSuggestion (filename : String) (s : String) : String :=
  "*" ++ filename ++ ":*\n```" ++ s ++ "```"

/-- The loop pushing one formatted entry per missing filename whose map
value is a truthy (non-empty) string. -/
def pickedSuggestions (filesnamesMissingAltText : List String)
    (m : List (String × Option String)) : List String :=
  filesnamesMissingAltText.filterMap (fun filename =>
    match mapGet m filename with
    | some (some s) => if s = "" then none else some (formatSuggestion filename s)
    | _ => none)

/-- The `suggestionText` variable of generateResponseText: empty unless the
map is present, non-empty, and at least one missing filename picked up a
truthy suggestion. -/
def suggestionText (filesnamesMissingAltText : List String)
    (altTextSuggestions : Option (List (String × Option String))) : String :=
  match altTextSuggestions with
  | some m =>
    if m.length > 0 then
      let suggestions := pickedSuggestions filesnamesMissingAltText m
      if suggestions.length > 0 then
        "\n\n*Here\x27s a suggestion:*\n" ++ String.intercalate "\n\n" suggestions ++ "\n"
      else ""
    else ""
  | none => ""

/-- The plural branch expression mapping each name to a backticked name and joining with a comma. -/
def joinBackticked (filesnamesMissingAltText : List String) : String :=
  String.intercalate ", " (filesnamesMissingAltText.map (fun name => "`" ++ name ++ "`"))

/-- Source: generateResponseText — singular phrasing when `fileCount === 1`,
else plural phrasing over the backticked missing filenames; either way the
suggestion text and the fixed instructions are appended. -/
def generateResponseText (fileCount : Nat) (filesnamesMissingAltText : List String)
    (altTextSuggestions : Option (List (String × Option String))) : String :=
  let sText := suggestionText filesnamesMissingAltText altTextSuggestions
  if fileCount = 1 then
    "Uh oh! The image you shared is missing alt text so it won\x27t be accessible to your teammates " ++
    "who are blind or have low-vision." ++ sText ++ "\n\n" ++ instructions
  else
    "Uh oh! The following images are missing alt text: " ++
    joinBackticked filesnamesMissingAltText ++ ". " ++
    "This means it won\x27t be accessible to your teammates who are blind or have low-vision." ++
    sText ++ "\n\n" ++ instructions

/-! Event handling and the dedup cache (utils.ts, handleAltTextGeneration) -/

/-- A Slack message event, with the fields the bot reads. -/
structure SlackEvent where
  type : String
  subtype : Option String
  event_ts : Option String
  ts : String
  channel : String
  user : String
  thread_ts : Option String
  files : Option (List SlackFile)
deriving DecidableEq

/-- Source: eventKey is the template string
`${slackEvent.event_ts || slackEvent.ts}_${slackEvent.channel}_${slackEvent.user}`. -/
def eventKey (e : SlackEvent) : String :=
  jsOrStr e.event_ts e.ts ++ "_" ++ e.channel ++ "_" ++ e.user

/-- Source: the cleanup after `processedEvents.add` — when the set grows past
1000 keys, delete the entries before the last 1000 in insertion order. -/
def evictOld (c : List String) : List String :=
  if c.length > 1000 then c.drop (c.length - 1000) else c

/-- Outcome of the `webClient.chat.postEphemeral` call. -/
inductive PostOutcome where
  | success
  | alreadyExists
  | failed
deriving DecidableEq

/-- Result of one handleAltTextGeneration invocation: the dedup cache
afterwards, whether an ephemeral notification was delivered, and the message
text handed to `postEphemeral` (none when no post was attempted). -/
structure HandleResult where
  cache : List String
  sent : Bool
  message : Option String
deriving DecidableEq

/-- Source: handleAltTextGeneration. Checks the dedup cache first, marks the
event processed, evicts old cache entries, un-marks it on every
non-processing path (bot message, no files, nothing missing) and on the
`already_exists` post error, and otherwise generates suggestions and posts a
single ephemeral message. The generation and post network effects are the
`gen` and `post` oracles. -/
def handleAltTextGeneration (cache : List String) (e : SlackEvent)
    (gen : SlackFile → GenOutcome) (post : PostOutcome) : HandleResult :=
  let key := eventKey e
  if cache.contains key then ⟨cache, false, none⟩
  else
    let c := evictOld (cache ++ [key])
    if e.subtype == some "bot_message" then ⟨c.erase key, false, none⟩
    else
      match e.files with
      | none => ⟨c.erase key, false, none⟩
      | some files =>
        let filesnamesMissingAltText := getImageNamesWithMissingAltText files
        if filesnamesMissingAltText.length = 0 then ⟨c.erase key, false, none⟩
        else
          let altTextSuggestions := buildSuggestions (getImagesWithMissingAltText files) gen
          let responseText :=
            generateResponseText files.length filesnamesMissingAltText (some altTextSuggestions)
          match post with
          | .success => ⟨c, true, some responseText⟩
          | .alreadyExists => ⟨c.erase key, false, some responseText⟩
          | .failed => ⟨c, false, some responseText⟩

/-! Retry-aware caller (utils.ts, generateAltTextSuggestion / attemptRequest) -/

/-- Outcome of one attempt of the download-then-generate body, as observed
at the two fetch sites: a thrown timeout, another thrown fetch error, a
non-ok HTTP status, or a successful generation response. -/
inductive AttemptOutcome where
  | downloadTimeout
  | downloadErr (msg : String)
  | downloadHttpErr (status : Nat) (statusText : String)
  | apiTimeout
  | apiErr (msg : String)
  | apiHttpErr (status : Nat) (statusText : String)
  | apiSuccess (altText : Option String)
deriving DecidableEq

/-- The error message the catch block observes for each failing outcome
(the timeout messages come from fetchWithTimeout with its 20s download and
24s API bounds). -/
def outcomeErrMsg : AttemptOutcome → String
  | .downloadTimeout => "Request timeout after 20000ms"
  | .downloadErr msg => msg
  | .downloadHttpErr status statusText =>
      "Failed to download image: " ++ toString status ++ " " ++ statusText
  | .apiTimeout => "Request timeout after 24000ms"
  | .apiErr msg => msg
  | .apiHttpErr status statusText => "API Error: " ++ toString status ++ " " ++ statusText
  | .apiSuccess _ => ""

/-- Source: `errorMessage.includes('timeout') || errorMessage.includes('AbortError')`. -/
def isTimeoutMsg (msg : String) : Bool :=
  jsIncludes msg "timeout" || jsIncludes msg "AbortError"

/-- What one attempt does next: return a final result, or sleep and retry. -/
inductive StepResult where
  | done (res : Option String)
  | retryAfter (delayMs : Nat)
deriving DecidableEq

/-- Source: the catch block of attemptRequest — retry (10s, or 5s on a
timeout) only when retries remain and the message mentions 429 or a
timeout; otherwise resolve null. -/
def catchHandler (msg : String) (retries : Nat) : StepResult :=
  if retries > 0 && (jsIncludes msg "429" || isTimeoutMsg msg) then
    .retryAfter (if isTimeoutMsg msg then 5000 else 10000)
  else .done none

/-- Source: `const altText = data.altText || null`. -/
def jsOrNull : Option String → Option String
  | some s => if s = "" then none else some s
  | none => none

/-- One attempt of attemptRequest: the in-line
`response.status === 429 && retries > 0` check fires before the throw,
every other failure goes through the catch block. -/
def attemptStep (o : AttemptOutcome) (retries : Nat) : StepResult :=
  match o with
  | .apiSuccess altText => .done (jsOrNull altText)
  | .apiHttpErr status statusText =>
    if status == 429 && retries > 0 then .retryAfter 10000
    else catchHandler (outcomeErrMsg (.apiHttpErr status statusText)) retries
  | _ => catchHandler (outcomeErrMsg o) retries

/-- Trace of one generateAltTextSuggestion run: how many HTTP attempts were
made, the backoff delays slept between them, and the final result. -/
structure RetryTrace where
  attempts : Nat
  delays : List Nat
  result : Option String
deriving DecidableEq

/-- Source: attemptRequest — each recursive call decrements `retries`; the
script supplies the outcome seen by each successive attempt. -/
def attemptRequest : List AttemptOutcome → Nat → RetryTrace
  | [], _ => ⟨0, [], none⟩
  | o :: rest, retries =>
    match attemptStep o retries with
    | .done res => ⟨1, [], res⟩
    | .retryAfter d =>
      let t := attemptRequest rest (retries - 1)
      ⟨t.attempts + 1, d :: t.delays, t.result⟩

/-- Source: `return attemptRequest()` with the default `retries = 3`
(API key present). -/
def generateAltTextSuggestion (script : List AttemptOutcome) : RetryTrace :=
  attemptRequest script 3

/-! Webhook endpoint (netlify/functions/slack-events.ts, handler) -/

/-- An HTTP response: status code, JSON body, extra headers. -/
structure HttpResponse where
  statusCode : Nat
  body : String
  extraHeaders : List (String × String)
deriving DecidableEq

/-- Body of the stale-timestamp rejection. -/
def tooOldBody : String := "\x7b\x22error\x22:\x22Request timestamp too old\x22\x7d"

/-- Body of the bad-signature rejection. -/
def invalidSigBody : String := "\x7b\x22error\x22:\x22Invalid signature\x22\x7d"

/-- Body of the unparseable-JSON rejection. -/
def invalidJsonBody : String := "\x7b\x22error\x22:\x22Invalid JSON\x22\x7d"

/-- Body of every plain acknowledgment. -/
def okBody : String := "\x7b\x22ok\x22:true\x7d"

/-- Body echoing a url_verification challenge. -/
def challengeBody (challenge : String) : String :=
  "\x7b\x22challenge\x22:\x22" ++ challenge ++ "\x22\x7d"

/-- The JS `s.split(sep)` for a one-character separator, on character
lists. -/
def splitOnChar (sep : Char) : List Char → List (List Char)
  | [] => [[]]
  | c :: rest =>
    match splitOnChar sep rest with
    | [] => [[]]
    | group :: groups =>
      if c = sep then [] :: group :: groups else (c :: group) :: groups

/-- Source: verifySlackRequest — split the signature on `=`, recompute the
HMAC hex digest of `version:timestamp:body` (the HMAC-SHA256 primitive is
the abstract `hmacHex`), and compare with the supplied hash; a signature
with no `=` leaves the hash undefined, which never matches. -/
def verifySlackRequest (hmacHex : String → String) (timestamp body signature : String) : Bool :=
  match (splitOnChar '=' signature.data).map String.mk with
  | version :: hash :: _ => hash == hmacHex (version ++ ":" ++ timestamp ++ ":" ++ body)
  | _ => false

/-- The JSON body shapes the handler distinguishes. -/
inductive ParsedBody where
  | urlVerification (challenge : String)
  | eventCallback (ev : SlackEvent) (eventId : Option String)
  | otherBody
deriving DecidableEq

/-- The pieces of an inbound Netlify request the handler reads; a missing
header or body is `none`. -/
structure NetlifyRequest where
  timestampHeader : Option String
  signatureHeader : Option String
  retryNumHeader : Option String
  body : Option String
deriving DecidableEq

/-- Source: the x-slack-retry-num short-circuit — a truthy header whose
`parseInt` is a number greater than 0 (a NaN comparison is false). -/
def retryPositive : Option String → Bool
  | some rn =>
    if rn = "" then false
    else
      match jsParseInt rn with
      | some k => decide (0 < k)
      | none => false
  | none => false

/-- Source: the replay-attack freshness check
`Math.abs(currentTime - parseInt(timestamp, 10)) > 300`; when `parseInt`
yields NaN every comparison is false, so the check never fires. -/
def tsStale (now : Int) (timestamp : String) : Bool :=
  match jsParseInt timestamp with
  | some t => decide ((now - t).natAbs > 300)
  | none => false

/-- The handler after the freshness gate: signature verification, JSON
parsing (the parser is the abstract `parseJson`), the url_verification
echo, the retry short-circuit, and the catch-all 200 acknowledgments. The
alt-text work in the message branch only changes state elsewhere; the
response is the same 200 acknowledgment either way. -/
def handlerAfterFreshness (hmacHex : String → String)
    (parseJson : String → Option ParsedBody) (req : NetlifyRequest) : HttpResponse :=
  let timestamp := req.timestampHeader.getD ""
  let signature := req.signatureHeader.getD ""
  if !verifySlackRequest hmacHex timestamp (req.body.getD "") signature then
    ⟨401, invalidSigBody, []⟩
  else
    match parseJson (jsOrStr req.body "\x7b\x7d") with
    | none => ⟨400, invalidJsonBody, []⟩
    | some (.urlVerification challenge) => ⟨200, challengeBody challenge, []⟩
    | some parsed =>
      if retryPositive req.retryNumHeader then
        ⟨200, okBody, [("x-slack-no-retry", "1")]⟩
      else
        match parsed with
        | .eventCallback ev _ =>
          if ev.type == "message" then ⟨200, okBody, []⟩ else ⟨200, okBody, []⟩
        | _ => ⟨200, okBody, []⟩

/-- Source: the Netlify handler — the freshness gate runs first, before the
signature comparison; `now` is `Math.floor(Date.now() / 1000)`. -/
def handler (hmacHex : String → String) (parseJson : String → Option ParsedBody)
    (now : Int) (req : NetlifyRequest) : HttpResponse :=
  let timestamp := req.timestampHeader.getD ""
  if tsStale now timestamp then ⟨401, tooOldBody, []⟩
  else handlerAfterFreshness hmacHex parseJson req

/-! Helper lemmas about the map model and the suggestion loop -/

theorem mapGet_setEntry_self (m : List (String × Option String)) (k : String)
    (v : Option String) : mapGet (setEntry m k v) k = some v := by
  induction m with
  | nil => simp [setEntry, mapGet]
  | cons p rest ih =>
    by_cases h : p.1 = k
    · simp [setEntry, mapGet, h]
    · simp [setEntry, mapGet, h, ih]

theorem mapGet_setEntry_ne (m : List (String × Option String)) (k k' : String)
    (v : Option String) (h : k' ≠ k) : mapGet (setEntry m k' v) k = mapGet m k := by
  induction m with
  | nil => simp [setEntry, mapGet, h]
  | cons p rest ih =>
    by_cases hp : p.1 = k'
    · simp [setEntry, mapGet, hp, h, Ne.symm h]
    · simp only [setEntry, if_neg hp, mapGet]
      by_cases hk : p.1 = k
      · simp [hk]
      · simp [hk, ih]

theorem mapGet_setEntry_isSome (m : List (String × Option String)) (k k' : String)
    (v : Option String) (h : (mapGet m k).isSome = true) :
    (mapGet (setEntry m k' v) k).isSome = true := by
  by_cases hk : k' = k
  · subst hk; rw [mapGet_setEntry_self]; rfl
  · rw [mapGet_setEntry_ne m k k' v hk]; exact h

theorem suggestionStep_eq_setEntry (gen : SlackFile → GenOutcome)
    (m : List (String × Option String)) (file : SlackFile) :
    ∃ v, suggestionStep gen m file = setEntry m file.name v := by
  unfold suggestionStep
  cases getBestThumbnailUrl file with
  | none => exact ⟨none, rfl⟩
  | some u =>
    cases gen file with
    | ok s => exact ⟨s, rfl⟩
    | exc => exact ⟨none, rfl⟩

theorem suggestionStep_of_failure (gen : SlackFile → GenOutcome)
    (m : List (String × Option String)) (file : SlackFile)
    (h : getBestThumbnailUrl file = none ∨ gen file = GenOutcome.exc) :
    suggestionStep gen m file = setEntry m file.name none := by
  unfold suggestionStep
  cases hurl : getBestThumbnailUrl file with
  | none => rfl
  | some u =>
    cases hg : gen file with
    | ok s =>
      rcases h with h | h
      · rw [hurl] at h; cases h
      · rw [hg] at h; cases h
    | exc => rfl

theorem foldl_suggestionStep_isSome (gen : SlackFile → GenOutcome) :
    ∀ (files : List SlackFile) (acc : List (String × Option String)) (k : String),
      (mapGet acc k).isSome = true →
      (mapGet (files.foldl (suggestionStep gen) acc) k).isSome = true := by
  intro files
  induction files with
  | nil => intro acc k h; simpa using h
  | cons f rest ih =>
    intro acc k h
    simp only [List.foldl_cons]
    apply ih
    obtain ⟨v, hv⟩ := suggestionStep_eq_setEntry gen acc f
    rw [hv]
    exact mapGet_setEntry_isSome acc k f.name v h

theorem foldl_suggestionStep_mem (gen : SlackFile → GenOutcome) :
    ∀ (files : List SlackFile) (acc : List (String × Option String)) (f : SlackFile),
      f ∈ files →
      (mapGet (files.foldl (suggestionStep gen) acc) f.name).isSome = true := by
  intro files
  induction files with
  | nil => intro acc f h; cases h
  | cons g rest ih =>
    intro acc f h
    simp only [List.foldl_cons]
    rcases List.mem_cons.mp h with h | h
    · subst h
      apply foldl_suggestionStep_isSome
      obtain ⟨v, hv⟩ := suggestionStep_eq_setEntry gen acc f
      rw [hv, mapGet_setEntry_self]
      rfl
    · exact ih _ f h

theorem foldl_suggestionStep_not_mem (gen : SlackFile → GenOutcome) :
    ∀ (files : List SlackFile) (acc : List (String × Option String)) (k : String),
      k ∉ files.map SlackFile.name →
      mapGet (files.foldl (suggestionStep gen) acc) k = mapGet acc k := by
  intro files
  induction files with
  | nil => intro acc k _; rfl
  | cons g rest ih =>
    intro acc k h
    simp only [List.map_cons, List.mem_cons, not_or] at h
    simp only [List.foldl_cons]
    rw [ih _ k h.2]
    obtain ⟨v, hv⟩ := suggestionStep_eq_setEntry gen acc g
    rw [hv]
    exact mapGet_setEntry_ne acc k g.name v (fun he => h.1 (he ▸ rfl))

theorem foldl_suggestionStep_failure (gen : SlackFile → GenOutcome) :
    ∀ (files : List SlackFile) (acc : List (String × Option String)) (f : SlackFile),
      f ∈ files → (files.map SlackFile.name).Nodup →
      (getBestThumbnailUrl f = none ∨ gen f = GenOutcome.exc) →
      mapGet (files.foldl (suggestionStep gen) acc) f.name = some none := by
  intro files
  induction files with
  | nil => intro acc f h; cases h
  | cons g rest ih =>
    intro acc f hmem hnodup hfail
    simp only [List.map_cons, List.nodup_cons] at hnodup
    simp only [List.foldl_cons]
    rcases List.mem_cons.mp hmem with h | h
    · subst h
      rw [foldl_suggestionStep_not_mem gen rest _ f.name hnodup.1]
      rw [suggestionStep_of_failure gen acc f hfail]
      exact mapGet_setEntry_self acc f.name none
    · exact ih _ f h hnodup.2 hfail

/-! Claim theorems -/

/-- C3: a file is classified as missing a description iff its MIME type
contains "image" and its alt-text field is undefined; a file whose alt-text
is a defined empty string is never classified as missing; the name list is
the name projection of the classified files. -/
theorem missing_description_classification (files : List SlackFile) (f : SlackFile) :
    (f ∈ getImagesWithMissingAltText files ↔
      f ∈ files ∧ jsIncludes f.mimetype "image" = true ∧ f.alt_txt = none) ∧
    (f.alt_txt = some "" → f ∉ getImagesWithMissingAltText files) ∧
    getImageNamesWithMissingAltText files =
      (getImagesWithMissingAltText files).map SlackFile.name := by
  have hiff : f ∈ getImagesWithMissingAltText files ↔
      f ∈ files ∧ jsIncludes f.mimetype "image" = true ∧ f.alt_txt = none := by
    unfold getImagesWithMissingAltText
    rw [List.mem_filter, Bool.and_eq_true, Option.isNone_iff_eq_none]
  refine ⟨hiff, ?_, rfl⟩
  intro hempty hmem
  have := (hiff.mp hmem).2.2
  rw [hempty] at this
  cases this

/-- C3 witness: a concrete image with undefined alt text is classified as
missing, a concrete image with empty-string alt text is not. -/
theorem missing_description_classification_witness :
    (⟨"a.png", "image/png", none, none, none, none, none, none, none⟩ : SlackFile) ∈
      getImagesWithMissingAltText
        [⟨"a.png", "image/png", none, none, none, none, none, none, none⟩,
         ⟨"b.png", "image/png", some "", none, none, none, none, none, none⟩] ∧
    (⟨"b.png", "image/png", some "", none, none, none, none, none, none⟩ : SlackFile) ∉
      getImagesWithMissingAltText
        [⟨"a.png", "image/png", none, none, none, none, none, none, none⟩,
         ⟨"b.png", "image/png", some "", none, none, none, none, none, none⟩] :=
  ⟨(missing_description_classification
      [⟨"a.png", "image/png", none, none, none, none, none, none, none⟩,
       ⟨"b.png", "image/png", some "", none, none, none, none, none, none⟩]
      ⟨"a.png", "image/png", none, none, none, none, none, none, none⟩).1.mpr
      ⟨by decide, by decide, rfl⟩,
   (missing_description_classification
      [⟨"a.png", "image/png", none, none, none, none, none, none, none⟩,
       ⟨"b.png", "image/png", some "", none, none, none, none, none, none⟩]
      ⟨"b.png", "image/png", some "", none, none, none, none, none, none⟩).2.1 rfl⟩

/-- C2: evaluating the retry loop on concrete response scripts. The script
429, 429, success yields exactly two 10-second delays and the generated
text, as the claim states; but the script of all 429s shows the code
performing a third 10-second delay and a fourth HTTP attempt before
resolving null, where the claim (and the code's own `Attempt n/3` log)
allows only 3 total attempts and no delay after the third 429. A non-429
HTTP failure resolves null immediately with no retry. -/
theorem retry_budget_trace :
    generateAltTextSuggestion [AttemptOutcome.apiHttpErr 429 "Too Many Requests",
        .apiHttpErr 429 "Too Many Requests", .apiSuccess (some "En katt")] =
      ⟨3, [10000, 10000], some "En katt"⟩ ∧
    generateAltTextSuggestion [AttemptOutcome.apiHttpErr 429 "Too Many Requests",
        .apiHttpErr 429 "Too Many Requests", .apiHttpErr 429 "Too Many Requests",
        .apiHttpErr 429 "Too Many Requests"] =
      ⟨4, [10000, 10000, 10000], none⟩ ∧
    generateAltTextSuggestion [AttemptOutcome.apiHttpErr 500 "Internal Server Error"] =
      ⟨1, [], none⟩ := by
  refine ⟨by decide, by decide, by decide⟩

/-- C8: the per-image loop records an entry in the suggestions map for every
processed attachment's filename, and (for distinct filenames) a failed
attachment — no eligible URL or a thrown generation exception — is recorded
as null; a failure therefore never aborts the processing of the remaining
attachments. -/
theorem suggestion_map_total (files : List SlackFile) (gen : SlackFile → GenOutcome)
    (f : SlackFile) (hf : f ∈ files) :
    (mapGet (buildSuggestions files gen) f.name).isSome = true ∧
    ((files.map SlackFile.name).Nodup →
      (getBestThumbnailUrl f = none ∨ gen f = GenOutcome.exc) →
      mapGet (buildSuggestions files gen) f.name = some none) :=
  ⟨foldl_suggestionStep_mem gen files [] f hf,
   fun hnodup hfail => foldl_suggestionStep_failure gen files [] f hf hnodup hfail⟩

/-- Concrete attachments for the C8 witness; the second one's generation
throws. -/
def demoFileA : SlackFile :=
  ⟨"a.png", "image/png", none, some "https://files-tmb/a8", none, none, none, none, none⟩

/-- Second concrete attachment for the C8 witness. -/
def demoFileB : SlackFile :=
  ⟨"b.png", "image/png", none, some "https://files-tmb/b8", none, none, none, none, none⟩

/-- Third concrete attachment for the C8 witness. -/
def demoFileC : SlackFile :=
  ⟨"c.png", "image/png", none, some "https://files-tmb/c8", none, none, none, none, none⟩

/-- Generation oracle for the C8 witness: the second attachment throws. -/
def demoGen : SlackFile → GenOutcome :=
  fun f => if f.name = "b.png" then GenOutcome.exc else GenOutcome.ok (some "Ett hus")

/-- C8 witness: three concrete attachments where the second one's generation
throws; the map has entries for all three names with the second recorded as
null. -/
theorem suggestion_map_total_witness :
    (mapGet (buildSuggestions [demoFileA, demoFileB, demoFileC] demoGen) "a.png").isSome = true ∧
    mapGet (buildSuggestions [demoFileA, demoFileB, demoFileC] demoGen) "b.png" = some none ∧
    (mapGet (buildSuggestions [demoFileA, demoFileB, demoFileC] demoGen) "c.png").isSome = true :=
  ⟨(suggestion_map_total [demoFileA, demoFileB, demoFileC] demoGen demoFileA (by decide)).1,
   (suggestion_map_total [demoFileA, demoFileB, demoFileC] demoGen demoFileB (by decide)).2
     (by decide) (Or.inr (by decide)),
   (suggestion_map_total [demoFileA, demoFileB, demoFileC] demoGen demoFileC (by decide)).1⟩

theorem jsOrNull_ne_empty (a : Option String) (s : String) (h : jsOrNull a = some s) :
    s ≠ "" := by
  cases a with
  | none => simp [jsOrNull] at h
  | some t =>
    by_cases ht : t = ""
    · simp [jsOrNull, ht] at h
    · simp [jsOrNull, ht] at h
      exact h ▸ ht

theorem catchHandler_ne_done_some (msg : String) (retries : Nat) (s : String) :
    catchHandler msg retries ≠ StepResult.done (some s) := by
  unfold catchHandler
  split <;> simp

theorem attemptStep_done_some (o : AttemptOutcome) (retries : Nat) (s : String)
    (h : attemptStep o retries = StepResult.done (some s)) : s ≠ "" := by
  cases o with
  | apiSuccess a =>
    simp only [attemptStep] at h
    injection h with h'
    exact jsOrNull_ne_empty a s h'
  | apiHttpErr status statusText =>
    simp only [attemptStep] at h
    split at h
    · cases h
    · exact absurd h (catchHandler_ne_done_some _ _ _)
  | downloadTimeout =>
    simp only [attemptStep] at h
    exact absurd h (catchHandler_ne_done_some _ _ _)
  | downloadErr msg =>
    simp only [attemptStep] at h
    exact absurd h (catchHandler_ne_done_some _ _ _)
  | downloadHttpErr status statusText =>
    simp only [attemptStep] at h
    exact absurd h (catchHandler_ne_done_some _ _ _)
  | apiTimeout =>
    simp only [attemptStep] at h
    exact absurd h (catchHandler_ne_done_some _ _ _)
  | apiErr msg =>
    simp only [attemptStep] at h
    exact absurd h (catchHandler_ne_done_some _ _ _)

/-- C10: a successful generation response whose altText field is absent or
the empty string is coerced to null — the retry loop never resolves to the
empty string, and the two falsy altText shapes concretely yield null. -/
theorem falsy_alt_text_is_null :
    (∀ (script : List AttemptOutcome) (retries : Nat) (s : String),
      (attemptRequest script retries).result = some s → s ≠ "") ∧
    generateAltTextSuggestion [AttemptOutcome.apiSuccess (some "")] = ⟨1, [], none⟩ ∧
    generateAltTextSuggestion [AttemptOutcome.apiSuccess none] = ⟨1, [], none⟩ := by
  refine ⟨?_, by decide, by decide⟩
  intro script
  induction script with
  | nil => intro retries s h; cases h
  | cons o rest ih =>
    intro retries s h
    unfold attemptRequest at h
    cases hstep : attemptStep o retries with
    | done res =>
      rw [hstep] at h
      simp only at h
      rw [h] at hstep
      exact attemptStep_done_some o retries s hstep
    | retryAfter d =>
      rw [hstep] at h
      simp only at h
      exact ih (retries - 1) s h

/-- C10 witness: a run resolving to a concrete non-empty suggestion, to
which the universal part of the theorem applies. -/
theorem falsy_alt_text_is_null_witness :
    (attemptRequest [AttemptOutcome.apiSuccess (some "En katt")] 3).result = some "En katt" ∧
    "En katt" ≠ "" :=
  ⟨by decide, falsy_alt_text_is_null.1 [AttemptOutcome.apiSuccess (some "En katt")] 3
    "En katt" (by decide)⟩

/-- C6 counterexample: with two shared files of which exactly one is
missing a description, the output is the plural phrasing listing the one
filename, not the singular phrasing the claim requires. -/
theorem singular_phrasing_counterexample :
    (["a.png"] : List String).length = 1 ∧
    generateResponseText 2 ["a.png"] none =
      "Uh oh! The following images are missing alt text: `a.png`. " ++
      "This means it won\x27t be accessible to your teammates who are blind or have low-vision." ++
      "\n\n" ++ instructions ∧
    generateResponseText 2 ["a.png"] none ≠ generateResponseText 1 ["a.png"] none :=
  ⟨rfl, by decide, by decide⟩

/-- C6 amended: generateResponseText uses the singular phrasing exactly when
the total file count is 1 — regardless of how many filenames are missing —
and the plural phrasing with the comma-joined missing filenames otherwise;
with no suggestions the singular text does not depend on the missing list
at all. -/
theorem singular_iff_filecount_one (fileCount : Nat) (miss : List String)
    (sug : Option (List (String × Option String))) :
    (fileCount = 1 → generateResponseText fileCount miss sug =
      "Uh oh! The image you shared is missing alt text so it won\x27t be accessible to your teammates who are blind or have low-vision." ++
      suggestionText miss sug ++ "\n\n" ++ instructions) ∧
    (fileCount ≠ 1 → generateResponseText fileCount miss sug =
      "Uh oh! The following images are missing alt text: " ++ joinBackticked miss ++
      ". This means it won\x27t be accessible to your teammates who are blind or have low-vision." ++
      suggestionText miss sug ++ "\n\n" ++ instructions) ∧
    (∀ miss2 : List String,
      generateResponseText 1 miss none = generateResponseText 1 miss2 none) := by
  refine ⟨?_, ?_, ?_⟩
  · intro h
    simp only [generateResponseText, if_pos h]
    rfl
  · intro h
    simp only [generateResponseText, if_neg h]
    rw [String.append_assoc
      ("Uh oh! The following images are missing alt text: " ++ joinBackticked miss) ". "
      "This means it won\x27t be accessible to your teammates who are blind or have low-vision.",
      show (". " ++
        "This means it won\x27t be accessible to your teammates who are blind or have low-vision." :
        String) =
        ". This means it won\x27t be accessible to your teammates who are blind or have low-vision."
        from rfl]
  · intro miss2
    simp [generateResponseText, suggestionText]

/-- C6 amended witness: instantiating both branches concretely. -/
theorem singular_iff_filecount_one_witness :
    generateResponseText 1 ["a.png"] none =
      "Uh oh! The image you shared is missing alt text so it won\x27t be accessible to your teammates who are blind or have low-vision." ++
      suggestionText ["a.png"] none ++ "\n\n" ++ instructions ∧
    generateResponseText 2 ["a.png"] none =
      "Uh oh! The following images are missing alt text: " ++ joinBackticked ["a.png"] ++
      ". This means it won\x27t be accessible to your teammates who are blind or have low-vision." ++
      suggestionText ["a.png"] none ++ "\n\n" ++ instructions :=
  ⟨(singular_iff_filecount_one 1 ["a.png"] none).1 rfl,
   (singular_iff_filecount_one 2 ["a.png"] none).2.1 (by decide)⟩

/-- Spec-side extraction of a truthy suggestion for a filename: the stored
value when present and non-empty, else none. -/
def truthyGet (m : List (String × Option String)) (n : String) : Option String :=
  match mapGet m n with
  | some (some s) => if s = "" then none else some s
  | _ => none

theorem pickedSuggestions_eq_filterMap (miss : List String)
    (m : List (String × Option String)) :
    pickedSuggestions miss m =
      miss.filterMap (fun n => Option.map (formatSuggestion n) (truthyGet m n)) := by
  unfold pickedSuggestions
  congr 1
  funext n
  unfold truthyGet
  cases mapGet m n with
  | none => rfl
  | some v =>
    cases v with
    | none => rfl
    | some s =>
      by_cases hs : s = ""
      · simp [hs]
      · simp [hs]

theorem truthyGet_isSome_iff (m : List (String × Option String)) (n : String) :
    (truthyGet m n).isSome = true ↔ ∃ s, mapGet m n = some (some s) ∧ s ≠ "" := by
  unfold truthyGet
  cases h : mapGet m n with
  | none => simp
  | some v =>
    cases v with
    | none => simp
    | some s =>
      by_cases hs : s = "" <;> simp [hs]

theorem append_ne_empty_left (a b : String) (h : a ≠ "") : a ++ b ≠ "" := by
  intro he
  apply h
  have hd : a.data ++ b.data = ([] : List Char) := by
    have := congrArg String.data he
    rwa [String.data_append] at this
  have ha : a.data = [] := (List.append_eq_nil.mp hd).1
  cases a with
  | mk d =>
    simp only [String.data] at ha
    rw [ha]

theorem pickedSuggestions_eq_nil_iff (miss : List String)
    (m : List (String × Option String)) :
    pickedSuggestions miss m = [] ↔ ∀ n ∈ miss, truthyGet m n = none := by
  rw [pickedSuggestions_eq_filterMap, List.filterMap_eq_nil_iff]
  constructor
  · intro h n hn
    exact Option.map_eq_none'.mp (h n hn)
  · intro h n hn
    rw [h n hn]
    rfl

theorem suggestionText_some_ne_empty_iff (miss : List String)
    (m : List (String × Option String)) :
    suggestionText miss (some m) ≠ "" ↔
      ∃ n ∈ miss, ∃ s, mapGet m n = some (some s) ∧ s ≠ "" := by
  constructor
  · intro hne
    simp only [suggestionText] at hne
    by_cases hm : m.length > 0
    · rw [if_pos hm] at hne
      by_cases hp : (pickedSuggestions miss m).length > 0
      · have hnil : pickedSuggestions miss m ≠ [] := by
          intro he
          rw [he] at hp
          simp at hp
        by_contra hex
        apply hnil
        rw [pickedSuggestions_eq_nil_iff]
        intro n hn
        by_contra htg
        apply hex
        obtain ⟨s, hs⟩ :=
          (truthyGet_isSome_iff m n).mp (Option.ne_none_iff_isSome.mp htg)
        exact ⟨n, hn, s, hs⟩
      · rw [if_neg hp] at hne
        exact absurd rfl hne
    · rw [if_neg hm] at hne
      exact absurd rfl hne
  · rintro ⟨n, hn, s, hs, hsne⟩
    have htg : (truthyGet m n).isSome = true := (truthyGet_isSome_iff m n).mpr ⟨s, hs, hsne⟩
    have hmne : m.length > 0 := by
      cases m with
      | nil => simp [mapGet] at hs
      | cons p rest => simp
    have hpne : pickedSuggestions miss m ≠ [] := by
      intro hallnil
      have hall := (pickedSuggestions_eq_nil_iff miss m).mp hallnil
      rw [hall n hn] at htg
      cases htg
    simp only [suggestionText]
    rw [if_pos hmne, if_pos (List.length_pos.mpr hpne)]
    exact append_ne_empty_left _ "\n"
      (append_ne_empty_left "\n\n*Here\x27s a suggestion:*\n" _ (by decide))

/-- C7: the output carries a suggestion block iff some listed missing
filename maps to a non-empty suggestion; the block lists exactly the
filenames with truthy suggestions, in the order of the missing list;
filenames without one stay in the plural reminder list, which is built
from the full missing list; and the fixed instructions are a suffix of the
output in every case. -/
theorem suggestion_block_content (fileCount : Nat) (miss : List String)
    (m : List (String × Option String))
    (sug : Option (List (String × Option String))) :
    (suggestionText miss (some m) ≠ "" ↔
      ∃ n ∈ miss, ∃ s, mapGet m n = some (some s) ∧ s ≠ "") ∧
    (pickedSuggestions miss m =
      (miss.filter (fun n => (truthyGet m n).isSome)).map
        (fun n => formatSuggestion n ((truthyGet m n).getD ""))) ∧
    (∃ pre, generateResponseText fileCount miss sug = pre ++ ("\n\n" ++ instructions)) ∧
    (fileCount ≠ 1 → generateResponseText fileCount miss sug =
      "Uh oh! The following images are missing alt text: " ++ joinBackticked miss ++ ". " ++
      "This means it won\x27t be accessible to your teammates who are blind or have low-vision." ++
      suggestionText miss sug ++ "\n\n" ++ instructions) := by
  refine ⟨suggestionText_some_ne_empty_iff miss m, ?_, ?_, ?_⟩
  · rw [pickedSuggestions_eq_filterMap]
    induction miss with
    | nil => rfl
    | cons n rest ih => cases h : truthyGet m n <;> simp [h, ih]
  · by_cases h1 : fileCount = 1
    · refine ⟨"Uh oh! The image you shared is missing alt text so it won\x27t be accessible to your teammates " ++
        "who are blind or have low-vision." ++ suggestionText miss sug, ?_⟩
      simp only [generateResponseText, if_pos h1, String.append_assoc]
    · refine ⟨"Uh oh! The following images are missing alt text: " ++ joinBackticked miss ++ ". " ++
        "This means it won\x27t be accessible to your teammates who are blind or have low-vision." ++
        suggestionText miss sug, ?_⟩
      simp only [generateResponseText, if_neg h1, String.append_assoc]
  · intro h1
    simp only [generateResponseText, if_neg h1]

/-- C7 witness: the spec's plural-with-suggestion example — two missing
filenames where only the first has a truthy suggestion. -/
theorem suggestion_block_content_witness :
    (suggestionText ["a.png", "b.png"] (some [("a.png", some "En katt"), ("b.png", none)]) ≠ "") ∧
    pickedSuggestions ["a.png", "b.png"] [("a.png", some "En katt"), ("b.png", none)] =
      [formatSuggestion "a.png" "En katt"] ∧
    generateResponseText 3 ["a.png", "b.png"]
        (some [("a.png", some "En katt"), ("b.png", none)]) =
      "Uh oh! The following images are missing alt text: " ++
      joinBackticked ["a.png", "b.png"] ++ ". " ++
      "This means it won\x27t be accessible to your teammates who are blind or have low-vision." ++
      suggestionText ["a.png", "b.png"] (some [("a.png", some "En katt"), ("b.png", none)]) ++
      "\n\n" ++ instructions :=
  ⟨(suggestion_block_content 3 ["a.png", "b.png"]
      [("a.png", some "En katt"), ("b.png", none)] none).1.mpr
      ⟨"a.png", by decide, "En katt", by decide, by decide⟩,
   by
    have h := (suggestion_block_content 3 ["a.png", "b.png"]
      [("a.png", some "En katt"), ("b.png", none)] none).2.1
    rw [h]
    decide,
   (suggestion_block_content 3 ["a.png", "b.png"]
      [("a.png", some "En katt"), ("b.png", none)]
      (some [("a.png", some "En katt"), ("b.png", none)])).2.2.2 (by decide)⟩

theorem mem_evictOld_append (c : List String) (k : String) : k ∈ evictOld (c ++ [k]) := by
  unfold evictOld
  split
  · rename_i hgt
    have hle : (c ++ [k]).length - 1000 ≤ c.length := by
      simp only [List.length_append, List.length_singleton]
      omega
    rw [List.drop_append_of_le_length hle]
    exact List.mem_append_right _ (by simp)
  · exact List.mem_append_right _ (by simp)

theorem evictOld_length_le (l : List String) (h : l.length ≤ 1001) :
    (evictOld l).length ≤ 1000 := by
  unfold evictOld
  split
  · rw [List.length_drop]
    omega
  · rename_i hle
    omega

theorem handle_skip (cache : List String) (e : SlackEvent) (gen : SlackFile → GenOutcome)
    (post : PostOutcome) (h : cache.contains (eventKey e) = true) :
    handleAltTextGeneration cache e gen post = ⟨cache, false, none⟩ := by
  simp only [handleAltTextGeneration]
  rw [if_pos h]

theorem handle_sent_cache (cache : List String) (e : SlackEvent)
    (gen : SlackFile → GenOutcome) (post : PostOutcome) :
    (handleAltTextGeneration cache e gen post).sent = true →
    (handleAltTextGeneration cache e gen post).cache = evictOld (cache ++ [eventKey e]) := by
  simp only [handleAltTextGeneration]
  split
  · intro hs
    exact absurd hs (by simp)
  · split
    · intro hs
      exact absurd hs (by simp)
    · split
      · intro hs
        exact absurd hs (by simp)
      · split
        · intro hs
          exact absurd hs (by simp)
        · split
          · intro _
            rfl
          · intro hs
            exact absurd hs (by simp)
          · intro hs
            exact absurd hs (by simp)

/-- C1: once an invocation of handleAltTextGeneration has delivered the
ephemeral notification for a fingerprint, the fingerprint is in the cache,
and a second invocation on any event with an equal fingerprint returns
immediately without posting — so the two invocations send at most one
notification between them. -/
theorem dedup_at_most_one (cache : List String) (e1 e2 : SlackEvent)
    (gen1 gen2 : SlackFile → GenOutcome) (post1 post2 : PostOutcome)
    (hk : eventKey e1 = eventKey e2) :
    (¬((handleAltTextGeneration cache e1 gen1 post1).sent = true ∧
      (handleAltTextGeneration (handleAltTextGeneration cache e1 gen1 post1).cache
        e2 gen2 post2).sent = true)) ∧
    ((handleAltTextGeneration cache e1 gen1 post1).sent = true →
      (handleAltTextGeneration cache e1 gen1 post1).cache.contains (eventKey e2) = true ∧
      handleAltTextGeneration (handleAltTextGeneration cache e1 gen1 post1).cache
          e2 gen2 post2 =
        ⟨(handleAltTextGeneration cache e1 gen1 post1).cache, false, none⟩) := by
  have hmain : (handleAltTextGeneration cache e1 gen1 post1).sent = true →
      (handleAltTextGeneration cache e1 gen1 post1).cache.contains (eventKey e2) = true ∧
      handleAltTextGeneration (handleAltTextGeneration cache e1 gen1 post1).cache
          e2 gen2 post2 =
        ⟨(handleAltTextGeneration cache e1 gen1 post1).cache, false, none⟩ := by
    intro hsent
    have hcache := handle_sent_cache cache e1 gen1 post1 hsent
    have hmem : eventKey e2 ∈ (handleAltTextGeneration cache e1 gen1 post1).cache := by
      rw [hcache, ← hk]
      exact mem_evictOld_append cache (eventKey e1)
    have hcont : (handleAltTextGeneration cache e1 gen1 post1).cache.contains
        (eventKey e2) = true := List.elem_eq_true_of_mem hmem
    exact ⟨hcont, handle_skip _ e2 gen2 post2 hcont⟩
  constructor
  · rintro ⟨h1, h2⟩
    obtain ⟨-, heq⟩ := hmain h1
    rw [heq] at h2
    cases h2
  · exact hmain

/-- Concrete event for the C1 and C4 witnesses: one shared image with no
alt text. -/
def demoEvent : SlackEvent :=
  ⟨"message", none, some "111.22", "111.22", "C1", "U1", none, some [demoFileA]⟩

/-- C1 witness: a concrete double delivery of the same event; the first run
posts and the second is skipped. -/
theorem dedup_at_most_one_witness :
    (handleAltTextGeneration [] demoEvent demoGen PostOutcome.success).sent = true ∧
    (handleAltTextGeneration [] demoEvent demoGen PostOutcome.success).cache.contains
      (eventKey demoEvent) = true ∧
    handleAltTextGeneration
        (handleAltTextGeneration [] demoEvent demoGen PostOutcome.success).cache
        demoEvent demoGen PostOutcome.success =
      ⟨(handleAltTextGeneration [] demoEvent demoGen PostOutcome.success).cache, false, none⟩ :=
  ⟨by decide,
   (dedup_at_most_one [] demoEvent demoEvent demoGen demoGen PostOutcome.success
      PostOutcome.success rfl).2 (by decide)⟩

/-- C4: every call of handleAltTextGeneration keeps the dedup cache at no
more than 1000 fingerprints, and when an insertion into a full cache
triggers eviction exactly the oldest entry is dropped, keeping the 1000
most recently inserted ones. -/
theorem cache_bound (cache : List String) (e : SlackEvent) (gen : SlackFile → GenOutcome)
    (post : PostOutcome) (h : cache.length ≤ 1000) :
    (handleAltTextGeneration cache e gen post).cache.length ≤ 1000 ∧
    (∀ k : String, cache.length = 1000 →
      evictOld (cache ++ [k]) = cache.drop 1 ++ [k]) := by
  constructor
  · have hev : ∀ k : String, (evictOld (cache ++ [k])).length ≤ 1000 := by
      intro k
      apply evictOld_length_le
      simp only [List.length_append, List.length_singleton]
      omega
    have her : ∀ (k : String) (l : List String),
        l.length ≤ 1000 → (l.erase k).length ≤ 1000 :=
      fun k l hl => le_trans (List.Sublist.length_le (List.erase_sublist k l)) hl
    simp only [handleAltTextGeneration]
    split
    · exact h
    · split
      · exact her _ _ (hev _)
      · split
        · exact her _ _ (hev _)
        · split
          · exact her _ _ (hev _)
          · split
            · exact hev _
            · exact her _ _ (hev _)
            · exact hev _
  · intro k h1000
    unfold evictOld
    rw [if_pos (by simp only [List.length_append, List.length_singleton, h1000]; omega)]
    have hl : (cache ++ [k]).length - 1000 = 1 := by
      simp only [List.length_append, List.length_singleton, h1000]
    rw [hl, List.drop_append_of_le_length (by omega : 1 ≤ cache.length)]

/-- Full cache of 1000 distinct-from-fresh fingerprints for the C4 witness. -/
def demoFullCache : List String := List.replicate 1000 "old_key"

/-- C4 witness: inserting into a full 1000-entry cache evicts exactly the
oldest entry, and a full run keeps the bound. -/
theorem cache_bound_witness :
    (handleAltTextGeneration demoFullCache demoEvent demoGen PostOutcome.success).cache.length
      ≤ 1000 ∧
    evictOld (demoFullCache ++ ["fresh_key"]) = demoFullCache.drop 1 ++ ["fresh_key"] :=
  ⟨(cache_bound demoFullCache demoEvent demoGen PostOutcome.success
      (by simp [demoFullCache])).1,
   (cache_bound demoFullCache demoEvent demoGen PostOutcome.success
      (by simp [demoFullCache])).2 "fresh_key" (by simp [demoFullCache])⟩

/-- C5: the handler's full response map — stale timestamp (checked first,
for every signature-verification outcome) gives 401, a failed signature
check gives 401, an unparseable body gives 400, a url_verification body
echoes its challenge with 200, and every other acknowledged case answers
200 with the ok body. -/
theorem handler_response_cases (hmacHex : String → String)
    (parseJson : String → Option ParsedBody) (now : Int) (req : NetlifyRequest) :
    (tsStale now (req.timestampHeader.getD "") = true →
      handler hmacHex parseJson now req = ⟨401, tooOldBody, []⟩) ∧
    (tsStale now (req.timestampHeader.getD "") = false →
      verifySlackRequest hmacHex (req.timestampHeader.getD "") (req.body.getD "")
        (req.signatureHeader.getD "") = false →
      handler hmacHex parseJson now req = ⟨401, invalidSigBody, []⟩) ∧
    (tsStale now (req.timestampHeader.getD "") = false →
      verifySlackRequest hmacHex (req.timestampHeader.getD "") (req.body.getD "")
        (req.signatureHeader.getD "") = true →
      parseJson (jsOrStr req.body "\x7b\x7d") = none →
      handler hmacHex parseJson now req = ⟨400, invalidJsonBody, []⟩) ∧
    (∀ challenge : String,
      tsStale now (req.timestampHeader.getD "") = false →
      verifySlackRequest hmacHex (req.timestampHeader.getD "") (req.body.getD "")
        (req.signatureHeader.getD "") = true →
      parseJson (jsOrStr req.body "\x7b\x7d") = some (ParsedBody.urlVerification challenge) →
      handler hmacHex parseJson now req = ⟨200, challengeBody challenge, []⟩) ∧
    (∀ parsed : ParsedBody,
      tsStale now (req.timestampHeader.getD "") = false →
      verifySlackRequest hmacHex (req.timestampHeader.getD "") (req.body.getD "")
        (req.signatureHeader.getD "") = true →
      parseJson (jsOrStr req.body "\x7b\x7d") = some parsed →
      (∀ challenge : String, parsed ≠ ParsedBody.urlVerification challenge) →
      (handler hmacHex parseJson now req).statusCode = 200 ∧
      (handler hmacHex parseJson now req).body = okBody) := by
  refine ⟨?_, ?_, ?_, ?_, ?_⟩
  · intro hstale
    simp [handler, hstale]
  · intro hstale hbad
    simp [handler, handlerAfterFreshness, hstale, hbad]
  · intro hstale hgood hparse
    simp [handler, handlerAfterFreshness, hstale, hgood, hparse]
  · intro challenge hstale hgood hparse
    simp [handler, handlerAfterFreshness, hstale, hgood, hparse]
  · intro parsed hstale hgood hparse hne
    cases parsed with
    | urlVerification challenge => exact absurd rfl (hne challenge)
    | eventCallback ev eventId =>
      by_cases hr : retryPositive req.retryNumHeader = true
      · simp [handler, handlerAfterFreshness, hstale, hgood, hparse, hr]
      · by_cases hm : (ev.type == "message") = true
        · simp [handler, handlerAfterFreshness, hstale, hgood, hparse, hr, hm]
        · simp [handler, handlerAfterFreshness, hstale, hgood, hparse, hr, hm]
    | otherBody =>
      by_cases hr : retryPositive req.retryNumHeader = true
      · simp [handler, handlerAfterFreshness, hstale, hgood, hparse, hr]
      · simp [handler, handlerAfterFreshness, hstale, hgood, hparse, hr]

/-- Abstract HMAC primitive used by the C5 and C9 witnesses. -/
def demoHmac : String → String := fun _ => "good"

/-- Parser used by the C5 witness branches that need an unparseable body. -/
def demoParseNone : String → Option ParsedBody := fun _ => none

/-- Parser used by the C5 witness url_verification branch. -/
def demoParseUrl : String → Option ParsedBody :=
  fun _ => some (ParsedBody.urlVerification "ch")

/-- Parser used by the C5 witness catch-all branch. -/
def demoParseOther : String → Option ParsedBody := fun _ => some ParsedBody.otherBody

/-- Request with a fresh timestamp and a matching signature. -/
def demoReqGood : NetlifyRequest := ⟨some "100", some "v0=good", none, some "body"⟩

/-- Request with a fresh timestamp and a wrong signature. -/
def demoReqBadSig : NetlifyRequest := ⟨some "100", some "v0=bad", none, some "body"⟩

/-- C5 witness: each response branch exercised on a concrete request. -/
theorem handler_response_cases_witness :
    handler demoHmac demoParseNone 10000 demoReqGood = ⟨401, tooOldBody, []⟩ ∧
    handler demoHmac demoParseNone 200 demoReqBadSig = ⟨401, invalidSigBody, []⟩ ∧
    handler demoHmac demoParseNone 200 demoReqGood = ⟨400, invalidJsonBody, []⟩ ∧
    handler demoHmac demoParseUrl 200 demoReqGood = ⟨200, challengeBody "ch", []⟩ ∧
    (handler demoHmac demoParseOther 200 demoReqGood).statusCode = 200 ∧
    (handler demoHmac demoParseOther 200 demoReqGood).body = okBody :=
  ⟨(handler_response_cases demoHmac demoParseNone 10000 demoReqGood).1 (by decide),
   (handler_response_cases demoHmac demoParseNone 200 demoReqBadSig).2.1 (by decide) (by decide),
   (handler_response_cases demoHmac demoParseNone 200 demoReqGood).2.2.1
     (by decide) (by decide) rfl,
   (handler_response_cases demoHmac demoParseUrl 200 demoReqGood).2.2.2.1 "ch"
     (by decide) (by decide) rfl,
   (handler_response_cases demoHmac demoParseOther 200 demoReqGood).2.2.2.2
     ParsedBody.otherBody (by decide) (by decide) rfl
     (fun _ hc => ParsedBody.noConfusion hc)⟩

/-- C9: when the timestamp header is absent or non-numeric, `parseInt`
yields NaN, the freshness comparison is false, and the handler proceeds
directly to signature verification instead of returning the stale-timestamp
401. -/
theorem nan_timestamp_no_stale_reject (hmacHex : String → String)
    (parseJson : String → Option ParsedBody) (now : Int) (req : NetlifyRequest)
    (h : jsParseInt (req.timestampHeader.getD "") = none) :
    tsStale now (req.timestampHeader.getD "") = false ∧
    handler hmacHex parseJson now req = handlerAfterFreshness hmacHex parseJson req := by
  have hts : tsStale now (req.timestampHeader.getD "") = false := by
    unfold tsStale
    rw [h]
  exact ⟨hts, by simp [handler, hts]⟩

/-- Request with no timestamp header at all, for the C9 witness. -/
def demoReqNoTs : NetlifyRequest := ⟨none, some "v0=bad", none, some "body"⟩

/-- C9 witness: a request with a missing timestamp header skips the stale
check and is judged by the signature check alone. -/
theorem nan_timestamp_no_stale_reject_witness :
    tsStale 123456789 ((demoReqNoTs).timestampHeader.getD "") = false ∧
    handler demoHmac demoParseNone 123456789 demoReqNoTs =
      handlerAfterFreshness demoHmac demoParseNone demoReqNoTs :=
  nan_timestamp_no_stale_reject demoHmac demoParseNone 123456789 demoReqNoTs rfl

end AltTextBot
